import Mathlib

set_option maxHeartbeats 1000000
set_option linter.unusedVariables false

/-!
Shallow embedding of the rust-jvm interpreter core (`src/java/runtime/mod.rs`):
the typed value model, stack frames, the per-class symbol table
(`class_index_map`) and the fetch-decode-execute loop `Runtime::run_method`.

Rust `Vec` stacks are modelled as Lean lists with the head as the top of the
stack.  Rust `i64` values are modelled as `Int`; where the source performs
machine arithmetic that can overflow (`lh + rh` in the `IAdd` arm), the result
is normalised with `wrap64`, the 64-bit two's-complement wraparound of
release-mode Rust.  Operations that can panic natively in Rust
(`Vec::insert` with an index above the length, `HashMap` `.unwrap()`,
an indexed write out of bounds) are modelled by the `RResult.panic`
constructor, kept distinct from the `RuntimeError` results that the source
returns through `Result`.
-/

/-- Modelled from the spec: the declared value types appearing in a method
signature (`ValueType` of the out-of-scope class-file decoder).  The
interpreter distinguishes only `Void` and `Integer`; every other kind falls
into the catch-all arm, modelled here by a single `reference` constructor. -/
inductive ValueType where
  | void
  | integer
  | reference
  deriving DecidableEq, Repr

/-- Modelled from the spec: a method's declared signature — ordered argument
types plus a return type. -/
structure Signature where
  arguments : List ValueType
  return_type : ValueType
  deriving DecidableEq, Repr

/-- Modelled from the spec: constant-table entries — a UTF-8 string, a class
reference (by name index), a method reference (by owning-class index and
name-and-type index), a name-and-type entry, and a catch-all for the kinds
that are out of scope. -/
inductive ConstantType where
  | utf8 (value : String)
  | cls (name_index : Nat)
  | methodRef (class_index : Nat) (name_and_type_index : Nat)
  | nameAndType (name_index : Nat) (descriptor_index : Nat)
  | other
  deriving DecidableEq, Repr

/-- Modelled from the spec: the code attribute of a method, carrying the
declared `max_locals` and `max_stack`.  The source accesses it through
`method.get_code().unwrap()`; it is modelled as always present. -/
structure Code where
  max_locals : Nat
  max_stack : Nat
  deriving DecidableEq, Repr

/-- The decoded instruction set consumed by `Runtime::run_method`
(`java::instructions::Instruction`).  Payloads of unit type are dropped;
`bipush`/`sipush` immediates are modelled as `Int` (the source widens them
with `i64::from`), and `unknown` stands for every decoded opcode that falls
into the interpreter's `_ =>` arm. -/
inductive Instruction where
  | iconstm1
  | iconst0
  | iconst1
  | iconst2
  | iconst3
  | iconst4
  | iconst5
  | bipush (value : Int)
  | sipush (value : Int)
  | iload (offset : Nat)
  | iload0
  | iload1
  | iload2
  | iload3
  | istore (offset : Nat)
  | istore0
  | istore1
  | istore2
  | istore3
  | iadd
  | ificmpge (target : Nat)
  | ireturn
  | ret
  | invokestatic (method_offset : Nat)
  | unknown
  deriving DecidableEq, Repr

/-- Modelled from the spec: one loaded class descriptor — a class name, an
ordered method list and a constant table addressable by numeric index. -/
structure Method where
  name : String
  signature : Signature
  code : Code
  instructions : List Instruction
  deriving DecidableEq, Repr

/-- Modelled from the spec: a class descriptor (`ClassFile`). -/
structure ClassFile where
  name : String
  methods : List Method
  constants : List ConstantType
  deriving DecidableEq, Repr

/-- Accessor mirroring `Method::get_signature`. -/
def Method.get_signature (m : Method) : Signature := m.signature

/-- Accessor mirroring `ClassFile::get_class_name`; modelled from the spec as
the class descriptor's name field. -/
def ClassFile.get_class_name (c : ClassFile) : String := c.name

/-- Accessor mirroring `ClassFile::get_constant`: constant table addressed by
numeric index, `none` when the index is outside the table. -/
def ClassFile.get_constant (c : ClassFile) (index : Nat) : Option ConstantType :=
  c.constants[index]?

/-- Modelled from the spec: `ClassFile::get_method_from_nat` resolves a
name-and-type index within the current class — follow the name-and-type
entry's name index to a UTF-8 entry and find the first method with that
name. -/
def ClassFile.get_method_from_nat (c : ClassFile) (nat_index : Nat) : Option Method :=
  match c.get_constant nat_index with
  | Option.some (ConstantType.nameAndType name_index _) =>
    match c.get_constant name_index with
    | Option.some (ConstantType.utf8 n) => c.methods.find? (fun m => m.name = n)
    | _ => Option.none
  | _ => Option.none

/-- `LocalVariable` of the source: the tagged value held by one
local-variable slot (`None` is the uninitialized tag). -/
inductive LocalVariable where
  | none
  | null
  | integer (value : Int)
  deriving DecidableEq, Repr

/-- `StackValue` of the source: the tagged value held by one operand-stack
entry — the same tag set as `LocalVariable`. -/
inductive StackValue where
  | none
  | null
  | integer (value : Int)
  deriving DecidableEq, Repr

/-- `RuntimeError` of the source, payloads included. -/
inductive RuntimeError where
  | genericError (message : String)
  | stackType (expected : String)
  | emptyStack
  | methodNotFound
  deriving DecidableEq, Repr

/-- Result of an interpreter step: the source's `Result<A, RuntimeError>`
extended with a `panic` constructor for the places where the Rust code can
abort natively (out-of-bounds `Vec::insert`, `.unwrap()` on a missing map
entry, indexed writes past the end, host-stack exhaustion). -/
inductive RResult (α : Type) where
  | ok (value : α)
  | err (error : RuntimeError)
  | panic (message : String)
  deriving DecidableEq, Repr

/-- `StackFrame` of the source: one call's local-variable slots plus its
operand stack (head of the list = top of the stack). -/
structure StackFrame where
  local_variables : List LocalVariable
  stack : List StackValue
  deriving DecidableEq, Repr

/-- `StackFrame::init_variables`: `size` slots, all uninitialized. -/
def StackFrame.init_variables (size : Nat) : List LocalVariable :=
  List.replicate size LocalVariable.none

/-- `StackFrame::create`: `var_count` uninitialized slots and an empty
operand stack (`stack_size` is only a capacity hint in the source). -/
def StackFrame.create (var_count : Nat) (stack_size : Nat) : StackFrame :=
  { local_variables := StackFrame.init_variables var_count
    stack := [] }

/-- Model of `Vec::insert self idx a`: insert `a` at position `idx`, shifting
every later element one place to the right.  Returns `none` — a native panic —
exactly when `idx` exceeds the length. -/
def insertAt {α : Type} : Nat → α → List α → Option (List α)
  | 0, a, l => Option.some (a :: l)
  | _ + 1, _, [] => Option.none
  | n + 1, a, b :: l => (insertAt n a l).map (fun t => b :: t)

/-- Model of the Rust loop in `StackFrame::for_method` that writes
`variables` into slots `0 .. variables.len()` via indexed assignment.
Returns `none` — a native panic — when there are more variables than
slots. -/
def copyArgs : List LocalVariable → List LocalVariable → Option (List LocalVariable)
  | slots, [] => Option.some slots
  | [], _ :: _ => Option.none
  | _ :: slots, v :: vs => (copyArgs slots vs).map (fun l => v :: l)

/-- `StackFrame::for_method`: builds the frame from the method's declared
`max_locals`/`max_stack`, then copies the supplied variables into the
low-indexed slots in order.  `none` models the native panic when the
argument list is longer than `max_locals`. -/
def StackFrame.for_method (method : Method) (vars : List LocalVariable) :
    Option StackFrame :=
  let locals := method.code.max_locals
  let stack_size := method.code.max_stack
  let frame := StackFrame.create locals stack_size
  (copyArgs frame.local_variables vars).map
    (fun l => { frame with local_variables := l })

/-- `StackFrame::get_variable`: bounds-checked read of one slot. -/
def StackFrame.get_variable (self : StackFrame) (index : Nat) : Option LocalVariable :=
  self.local_variables[index]?

/-- `StackFrame::set_variable`: the source calls `Vec::insert`, so the write
SHIFTS the existing slots instead of overwriting, grows the slot list by
one, and panics (`none`) when the index exceeds the current length. -/
def StackFrame.set_variable (self : StackFrame) (index : Nat) (var : LocalVariable) :
    Option StackFrame :=
  (insertAt index var self.local_variables).map
    (fun l => { self with local_variables := l })

/-- `StackFrame::pop_stack`: pops the top operand-stack value, returning it
with the remaining frame; `none` on an empty stack. -/
def StackFrame.pop_stack (self : StackFrame) : Option (StackValue × StackFrame) :=
  match self.stack with
  | [] => Option.none
  | v :: rest => Option.some (v, { self with stack := rest })

/-- `StackFrame::push_stack`. -/
def StackFrame.push_stack (self : StackFrame) (value : StackValue) : StackFrame :=
  { self with stack := value :: self.stack }

/-- 64-bit two's-complement wraparound, the release-mode semantics of Rust
`i64` addition used in the `IAdd` arm. -/
def wrap64 (z : Int) : Int :=
  (z + 2 ^ 63) % 2 ^ 64 - 2 ^ 63

/-- `Runtime::exec_istore`: pop the stack; if the popped value is an
`Integer`, write it into slot `offset` through `set_variable` (which inserts
— see `StackFrame.set_variable`); every other pop outcome — an empty stack
as well as a non-integer top — falls into the single `_` arm producing one
generic error. -/
def Runtime.exec_istore (stack_frame : StackFrame) (offset : Nat) :
    RResult StackFrame :=
  match stack_frame.pop_stack with
  | Option.some (StackValue.integer intvalue, frame) =>
    match frame.set_variable offset (LocalVariable.integer intvalue) with
    | Option.some frame2 => RResult.ok frame2
    | Option.none => RResult.panic ("insertion index out of bounds")
  | _ =>
    RResult.err (RuntimeError.genericError
      ("stack value at index " ++ toString offset ++ " is not an integer"))

/-- `Runtime::exec_iload`: read slot `offset`; push a copy when it holds an
`Integer`; otherwise fail with the matching generic error (undefined slot /
wrong slot type / out of range). -/
def Runtime.exec_iload (stack_frame : StackFrame) (offset : Nat) :
    RResult StackFrame :=
  match stack_frame.get_variable offset with
  | Option.some (LocalVariable.integer intvalue) =>
    RResult.ok (stack_frame.push_stack (StackValue.integer intvalue))
  | Option.some LocalVariable.none =>
    RResult.err (RuntimeError.genericError
      ("local variable at index " ++ toString offset ++ " is not defined"))
  | Option.some _ =>
    RResult.err (RuntimeError.genericError
      ("local variable at index " ++ toString offset ++ " is not an integer"))
  | Option.none =>
    RResult.err (RuntimeError.genericError
      ("stack value at index " ++ toString offset ++ " is out of range"))

/-- `Runtime` of the source: the class registry (`HashMap`s modelled as
association lists where a prepended entry shadows older ones, matching
`HashMap::insert` overwrite semantics), the inert classpath list and the
entry-class name. -/
structure Runtime where
  classes : List (String × ClassFile)
  classpath : List String
  main_class : String
  class_index_map : List (String × List (Nat × String))

/-- Lookup in an association list modelling `HashMap::get`: the first
(most recently inserted) entry for the key. -/
def lookupA (m : List (Nat × String)) (k : Nat) : Option String :=
  (m.find? (fun p => p.1 = k)).map (fun p => p.2)

/-- Lookup of one class's symbol table,
`self.class_index_map.get(class_name)`. -/
def lookupClassMap (rt : Runtime) (class_name : String) :
    Option (List (Nat × String)) :=
  (rt.class_index_map.find? (fun p => p.1 = class_name)).map (fun p => p.2)

/-- `Runtime::build_class_index_map`: scan the constant table; for every
method reference follow its class index to a class entry and that entry's
name index to a UTF-8 entry, recording class-index -> resolved name.  Broken
chains are silently skipped.  Insertion is modelled by prepending, so a later
entry for the same key shadows an earlier one, as with `HashMap::insert`. -/
def Runtime.build_class_index_map (class_file : ClassFile) : List (Nat × String) :=
  class_file.constants.foldl
    (fun map c =>
      match c with
      | ConstantType.methodRef class_index _ =>
        match class_file.get_constant class_index with
        | Option.some (ConstantType.cls name_index) =>
          match class_file.get_constant name_index with
          | Option.some (ConstantType.utf8 value) => (class_index, value) :: map
          | _ => map
        | _ => map
      | _ => map)
    []

/-- `Runtime::load_class`: build and store the class's symbol table, then
store the class itself, keyed by its declared name (overwriting any previous
entry). -/
def Runtime.load_class (self : Runtime) (class_file : ClassFile) : Runtime :=
  let map := Runtime.build_class_index_map class_file
  let name := class_file.get_class_name
  { self with
    class_index_map := (name, map) :: self.class_index_map
    classes := (name, class_file) :: self.classes }

/-- `Runtime::create`: fresh registry holding only the entry class, whose
name becomes the entry point. -/
def Runtime.create (main_class : ClassFile) : Runtime :=
  let name := main_class.get_class_name
  let rt : Runtime :=
    { classes := []
      classpath := ["."]
      class_index_map := []
      main_class := name }
  rt.load_class main_class

/-- The mutable state threaded through the instruction loop of
`Runtime::run_method`: the stack frame and the `return_value` local. -/
structure LoopState where
  frame : StackFrame
  return_value : Option StackValue
  deriving DecidableEq, Repr

/-- The per-variant conversion applied inside the argument-popping closure of
the `InvokeStatic` arm (`StackValue` -> `LocalVariable`, tag preserved). -/
def stackToLocal : StackValue → LocalVariable
  | StackValue.integer v => LocalVariable.integer v
  | StackValue.none => LocalVariable.none
  | StackValue.null => LocalVariable.null

/-- The argument-popping loop of the `InvokeStatic` arm: one pop per declared
argument, collected in pop order, short-circuiting with `EmptyStack` at the
first pop of an empty stack (Rust `map` + `collect::<Result<Vec, _>>`). -/
def Runtime.popArgs : List ValueType → StackFrame →
    Except RuntimeError (List LocalVariable × StackFrame)
  | [], f => Except.ok ([], f)
  | _ :: rest, f =>
    match f.pop_stack with
    | Option.some (sv, f1) =>
      match Runtime.popArgs rest f1 with
      | Except.ok (args, f2) => Except.ok (stackToLocal sv :: args, f2)
      | Except.error e => Except.error e
    | Option.none => Except.error RuntimeError.emptyStack

/-- Lifts the result of a frame-mutating helper back into the loop state,
modelling the `?` operator applied to `exec_iload` / `exec_istore`. -/
def RResult.liftFrame (st : LoopState) : RResult StackFrame → RResult LoopState
  | RResult.ok f => RResult.ok { st with frame := f }
  | RResult.err e => RResult.err e
  | RResult.panic msg => RResult.panic msg

/-- The body of the fetch-decode-execute loop of `Runtime::run_method` for
one instruction, factored out with the recursive `self.run_method` call
abstracted as `invoke`.  Every arm mirrors the source match:

* push-constant arms push unconditionally;
* `iload`/`istore` (and their fixed-slot shorthands) defer to
  `exec_iload`/`exec_istore` through `?`;
* `iadd` performs the two pops left to right on the same stack, so the
  source's `(None, Some(_))` arm (a generic `IAdd` error) is unreachable;
* `ificmpge` is an empty stub in the source — the state passes through
  unchanged and control falls through to the next instruction;
* `ireturn`/`ret` only assign `return_value` — they do NOT leave the loop;
* `invokestatic` resolves the method reference through the constant table
  and the class's symbol table; a symbol table missing for the current class
  is the source's `.unwrap()` panic; when the resolved name differs from the
  current class's name the `if` has no else branch and nothing happens;
* any other opcode is the `unknown instruction` generic error. -/
def Runtime.exec_instr
    (invoke : Method → ClassFile → List LocalVariable → RResult (Option StackValue))
    (rt : Runtime) (class_file : ClassFile) (st : LoopState) :
    Instruction → RResult LoopState
  | Instruction.iconstm1 =>
    RResult.ok { st with frame := st.frame.push_stack (StackValue.integer (-1)) }
  | Instruction.iconst0 =>
    RResult.ok { st with frame := st.frame.push_stack (StackValue.integer 0) }
  | Instruction.iconst1 =>
    RResult.ok { st with frame := st.frame.push_stack (StackValue.integer 1) }
  | Instruction.iconst2 =>
    RResult.ok { st with frame := st.frame.push_stack (StackValue.integer 2) }
  | Instruction.iconst3 =>
    RResult.ok { st with frame := st.frame.push_stack (StackValue.integer 3) }
  | Instruction.iconst4 =>
    RResult.ok { st with frame := st.frame.push_stack (StackValue.integer 4) }
  | Instruction.iconst5 =>
    RResult.ok { st with frame := st.frame.push_stack (StackValue.integer 5) }
  | Instruction.bipush value =>
    RResult.ok { st with frame := st.frame.push_stack (StackValue.integer value) }
  | Instruction.sipush value =>
    RResult.ok { st with frame := st.frame.push_stack (StackValue.integer value) }
  | Instruction.iload offset => RResult.liftFrame st (Runtime.exec_iload st.frame offset)
  | Instruction.iload0 => RResult.liftFrame st (Runtime.exec_iload st.frame 0)
  | Instruction.iload1 => RResult.liftFrame st (Runtime.exec_iload st.frame 1)
  | Instruction.iload2 => RResult.liftFrame st (Runtime.exec_iload st.frame 2)
  | Instruction.iload3 => RResult.liftFrame st (Runtime.exec_iload st.frame 3)
  | Instruction.istore offset => RResult.liftFrame st (Runtime.exec_istore st.frame offset)
  | Instruction.istore0 => RResult.liftFrame st (Runtime.exec_istore st.frame 0)
  | Instruction.istore1 => RResult.liftFrame st (Runtime.exec_istore st.frame 1)
  | Instruction.istore2 => RResult.liftFrame st (Runtime.exec_istore st.frame 2)
  | Instruction.istore3 => RResult.liftFrame st (Runtime.exec_istore st.frame 3)
  | Instruction.iadd =>
    match st.frame.pop_stack with
    | Option.some (v1, f1) =>
      match f1.pop_stack with
      | Option.some (v2, f2) =>
        match v1, v2 with
        | StackValue.integer lh, StackValue.integer rh =>
          RResult.ok { st with frame := f2.push_stack (StackValue.integer (wrap64 (lh + rh))) }
        | _, _ => RResult.err (RuntimeError.stackType ("integer"))
      | Option.none => RResult.err RuntimeError.emptyStack
    | Option.none => RResult.err RuntimeError.emptyStack
  | Instruction.ificmpge _ => RResult.ok st
  | Instruction.ireturn =>
    match st.frame.pop_stack with
    | Option.some (StackValue.integer ret, f1) =>
      RResult.ok { frame := f1, return_value := Option.some (StackValue.integer ret) }
    | Option.some (_, _) => RResult.err (RuntimeError.stackType ("Integer"))
    | Option.none => RResult.err RuntimeError.emptyStack
  | Instruction.ret => RResult.ok { st with return_value := Option.none }
  | Instruction.invokestatic method_offset =>
    match class_file.get_constant method_offset with
    | Option.some (ConstantType.methodRef class_index name_and_type_index) =>
      match lookupClassMap rt class_file.get_class_name with
      | Option.none => RResult.panic ("no symbol table for the current class")
      | Option.some cmap =>
        match lookupA cmap class_index with
        | Option.none =>
          RResult.err (RuntimeError.genericError
            ("class not found " ++ toString class_index))
        | Option.some cls_name =>
          if cls_name = class_file.get_class_name then
            match class_file.get_method_from_nat name_and_type_index with
            | Option.none => RResult.err RuntimeError.methodNotFound
            | Option.some method =>
              match Runtime.popArgs method.get_signature.arguments st.frame with
              | Except.error e => RResult.err e
              | Except.ok (args, f1) =>
                match invoke method class_file args.reverse with
                | RResult.ok (Option.some stack_value) =>
                  RResult.ok { st with frame := f1.push_stack stack_value }
                | RResult.ok Option.none => RResult.ok { st with frame := f1 }
                | RResult.err e => RResult.err e
                | RResult.panic msg => RResult.panic msg
          else
            RResult.ok st
    | Option.some _ =>
      RResult.err (RuntimeError.genericError
        ("invalid method offset " ++ toString method_offset))
    | Option.none =>
      RResult.err (RuntimeError.genericError
        ("invalid method offset " ++ toString method_offset))
  | Instruction.unknown =>
    RResult.err (RuntimeError.genericError ("unknown instruction"))

/-- The `for instruction in method.instructions()` loop of
`Runtime::run_method`: errors and panics short-circuit (Rust `?` /
`return Err`); everything else — a set `return_value` included — continues
with the next instruction. -/
def Runtime.run_loop
    (invoke : Method → ClassFile → List LocalVariable → RResult (Option StackValue))
    (rt : Runtime) (class_file : ClassFile) :
    LoopState → List Instruction → RResult LoopState
  | st, [] => RResult.ok st
  | st, i :: rest =>
    match Runtime.exec_instr invoke rt class_file st i with
    | RResult.ok st1 => Runtime.run_loop invoke rt class_file st1 rest
    | RResult.err e => RResult.err e
    | RResult.panic msg => RResult.panic msg

/-- The post-loop verification of `Runtime::run_method` against the declared
return type: a void method must have produced no value; an integer method
must have produced `Integer` or `Null` (in particular, `None` — no value —
is rejected); other declared types are not checked. -/
def Runtime.check_return (method : Method) (return_value : Option StackValue) :
    RResult (Option StackValue) :=
  match method.get_signature.return_type with
  | ValueType.void =>
    match return_value with
    | Option.some _ =>
      RResult.err (RuntimeError.genericError ("invalid return type. expected void."))
    | Option.none => RResult.ok return_value
  | ValueType.integer =>
    match return_value with
    | Option.some (StackValue.integer _) => RResult.ok return_value
    | Option.some StackValue.null => RResult.ok return_value
    | _ =>
      RResult.err (RuntimeError.genericError ("invalid return type. expected integer."))
  | _ => RResult.ok return_value

/-- `Runtime::run_method`: build the frame via `for_method`, run the
instruction loop, then verify the produced value against the declared return
type.  The host call stack of the Rust recursion is modelled by `fuel`;
exhausting it is the native stack-overflow abort, kept in the `panic`
constructor like the other native faults. -/
def Runtime.run_method :
    Nat → Runtime → Method → ClassFile → List LocalVariable →
    RResult (Option StackValue)
  | 0, _, _, _, _ => RResult.panic ("host stack exhausted")
  | Nat.succ fuel, rt, method, class_file, arguments =>
    match StackFrame.for_method method arguments with
    | Option.none => RResult.panic ("index out of bounds")
    | Option.some frame =>
      match
        Runtime.run_loop (fun m c a => Runtime.run_method fuel rt m c a) rt class_file
          { frame := frame, return_value := Option.none } method.instructions
      with
      | RResult.ok st => Runtime.check_return method st.return_value
      | RResult.err e => RResult.err e
      | RResult.panic msg => RResult.panic msg

/-- Inserting at an index at most the length succeeds and places the inserted
element at exactly that index. -/
theorem insertAt_get {α : Type} :
    ∀ (i : Nat) (a : α) (l : List α), i ≤ l.length →
      ∃ l2, insertAt i a l = Option.some l2 ∧ l2[i]? = Option.some a
  | 0, a, l, _ => ⟨a :: l, rfl, by simp⟩
  | i + 1, a, [], h => absurd h (by simp)
  | i + 1, a, b :: t, h => by
    obtain ⟨l2, h1, h2⟩ := insertAt_get i a t (Nat.le_of_succ_le_succ h)
    exact ⟨b :: l2, by simp [insertAt, h1], by simpa using h2⟩

/-- Claim C2 (code_bug): a successful `istore` is supposed to overwrite slot
`i` and leave every other slot and the slot count unchanged, but
`StackFrame::set_variable` calls `Vec::insert`: storing `Integer(9)` into
slot 0 of a 2-slot frame holding `[Integer(1), Integer(2)]` yields THREE
slots `[Integer(9), Integer(1), Integer(2)]` — slot 1 changed from
`Integer(2)` to `Integer(1)` and the slot count no longer equals the
declared max-locals. -/
theorem istore_inserts_and_shifts :
    Runtime.exec_istore
        { local_variables := [LocalVariable.integer 1, LocalVariable.integer 2]
          stack := [StackValue.integer 9] } 0 =
      RResult.ok
        { local_variables :=
            [LocalVariable.integer 9, LocalVariable.integer 1, LocalVariable.integer 2]
          stack := [] } ∧
    ([LocalVariable.integer 9, LocalVariable.integer 1, LocalVariable.integer 2] :
        List LocalVariable).length = 3 ∧
    ([LocalVariable.integer 9, LocalVariable.integer 1, LocalVariable.integer 2] :
        List LocalVariable)[1]? = Option.some (LocalVariable.integer 1) := by
  decide

/-- Claim C3 (code_bug): for an index strictly above the slot count, `iload`
does produce the "out of range" error condition, but `istore` reaches
`Vec::insert` with an index above the length — a native panic, not an error
condition: frame with one slot, index 3. -/
theorem slot_out_of_range_istore_panics :
    Runtime.exec_iload { local_variables := [LocalVariable.none], stack := [] } 3 =
      RResult.err (RuntimeError.genericError
        ("stack value at index 3 is out of range")) ∧
    Runtime.exec_istore
        { local_variables := [LocalVariable.none], stack := [StackValue.integer 5] } 3 =
      RResult.panic ("insertion index out of bounds") := by
  decide

/-- Claim C4 (counterexample): popping an empty stack in `exec_istore` does
NOT produce the `EmptyStack` error — the `_` arm produces the same
`GenericError` as a wrongly-typed top of stack, so the two failure kinds are
not distinguishable. -/
theorem istore_empty_stack_error_is_generic :
    Runtime.exec_istore { local_variables := [LocalVariable.none], stack := [] } 0 =
      RResult.err (RuntimeError.genericError
        ("stack value at index 0 is not an integer")) ∧
    RuntimeError.genericError ("stack value at index 0 is not an integer") ≠
      RuntimeError.emptyStack := by
  decide

/-- Claim C4 (amended): `exec_istore` pops the operand stack; when the stack
is empty, and likewise when the popped value is not `Integer`, it fails with
the one generic error `stack value at index i is not an integer` — the same
error in both cases, so the failure kinds are not distinguishable; when the
popped value is `Integer` and the target index is at most the slot count it
succeeds. -/
theorem istore_single_generic_error (frame : StackFrame) (offset : Nat) :
    ((frame.stack = [] ∨
        ∃ v rest, frame.stack = v :: rest ∧ ∀ n : Int, v ≠ StackValue.integer n) →
      Runtime.exec_istore frame offset =
        RResult.err (RuntimeError.genericError
          ("stack value at index " ++ toString offset ++ " is not an integer"))) ∧
    (∀ (n : Int) (rest : List StackValue),
      frame.stack = StackValue.integer n :: rest →
      offset ≤ frame.local_variables.length →
      ∃ frame2, Runtime.exec_istore frame offset = RResult.ok frame2) := by
  obtain ⟨lv, stk⟩ := frame
  constructor
  · rintro (h | ⟨v, rest, hv, hne⟩)
    · dsimp only at h
      subst h
      rfl
    · dsimp only at hv
      subst hv
      cases v with
      | integer n => exact absurd rfl (hne n)
      | none => rfl
      | null => rfl
  · intro n rest hs hle
    dsimp only at hs hle
    subst hs
    obtain ⟨l2, h1, _⟩ := insertAt_get offset (LocalVariable.integer n) lv hle
    exact ⟨{ local_variables := l2, stack := rest },
      by simp [Runtime.exec_istore, StackFrame.pop_stack, StackFrame.set_variable, h1]⟩

/-- Claim C4 witness: the empty-stack case at a concrete frame. -/
theorem istore_single_generic_error_witness :
    Runtime.exec_istore { local_variables := [LocalVariable.none], stack := [] } 0 =
      RResult.err (RuntimeError.genericError
        ("stack value at index " ++ toString 0 ++ " is not an integer")) :=
  (istore_single_generic_error
    { local_variables := [LocalVariable.none], stack := [] } 0).1 (Or.inl rfl)

/-- Claim C7: loading an in-range slot that is still uninitialized
(`LocalVariable::None`) always fails with the "is not defined" generic error;
the error result carries no frame, so no value — in particular no default —
is ever pushed. -/
theorem iload_undefined_slot (frame : StackFrame) (offset : Nat)
    (h : frame.local_variables[offset]? = Option.some LocalVariable.none) :
    Runtime.exec_iload frame offset =
      RResult.err (RuntimeError.genericError
        ("local variable at index " ++ toString offset ++ " is not defined")) := by
  simp [Runtime.exec_iload, StackFrame.get_variable, h]

/-- Claim C7 witness: slot 0 of a one-slot frame that was never stored. -/
theorem iload_undefined_slot_witness :
    Runtime.exec_iload { local_variables := [LocalVariable.none], stack := [] } 0 =
      RResult.err (RuntimeError.genericError
        ("local variable at index " ++ toString 0 ++ " is not defined")) :=
  iload_undefined_slot { local_variables := [LocalVariable.none], stack := [] } 0 rfl

/-- Claim C6: storing `Integer(v)` into a valid slot `i` and then loading
slot `i` succeeds and pushes exactly `Integer(v)` back onto the operand
stack (the store places the value at index `i` even though it inserts). -/
theorem istore_iload_roundtrip (frame : StackFrame) (i : Nat) (v : Int)
    (rest : List StackValue)
    (hs : frame.stack = StackValue.integer v :: rest)
    (hi : i < frame.local_variables.length) :
    ∃ l2, Runtime.exec_istore frame i =
        RResult.ok { local_variables := l2, stack := rest } ∧
      Runtime.exec_iload { local_variables := l2, stack := rest } i =
        RResult.ok { local_variables := l2, stack := StackValue.integer v :: rest } := by
  obtain ⟨lv, stk⟩ := frame
  dsimp only at hs hi
  subst hs
  obtain ⟨l2, h1, h2⟩ := insertAt_get i (LocalVariable.integer v) lv (Nat.le_of_lt hi)
  refine ⟨l2, ?_, ?_⟩
  · simp [Runtime.exec_istore, StackFrame.pop_stack, StackFrame.set_variable, h1]
  · simp [Runtime.exec_iload, StackFrame.get_variable, h2, StackFrame.push_stack]

/-- Claim C6 witness: slot 0, value 7, one-slot frame. -/
theorem istore_iload_roundtrip_witness :
    ∃ l2, Runtime.exec_istore
        { local_variables := [LocalVariable.none], stack := [StackValue.integer 7] } 0 =
        RResult.ok { local_variables := l2, stack := [] } ∧
      Runtime.exec_iload { local_variables := l2, stack := [] } 0 =
        RResult.ok { local_variables := l2, stack := [StackValue.integer 7] } :=
  istore_iload_roundtrip
    { local_variables := [LocalVariable.none], stack := [StackValue.integer 7] } 0 7 []
    rfl (by decide)

/-- Trivial invoker used to instantiate the abstracted recursive call in
closed instances. -/
def invokeNothing : Method → ClassFile → List LocalVariable → RResult (Option StackValue) :=
  fun _ _ _ => RResult.ok Option.none

/-- Minimal class used to instantiate closed instances. -/
def emptyClass : ClassFile :=
  { name := "Empty", methods := [], constants := [] }

/-- Claim C5: `iadd` fails with `EmptyStack` exactly when the stack holds
fewer than two values (the pops run left to right on one stack, so the
source's fourth arm is unreachable); with two integers on top it pops both
and pushes the 64-bit two's-complement wraparound sum; with two values on
top of which either is not an `Integer` it fails with the
`StackType` ("wrong stack type") error. -/
theorem iadd_spec
    (invoke : Method → ClassFile → List LocalVariable → RResult (Option StackValue))
    (rt : Runtime) (class_file : ClassFile) (st : LoopState) :
    ((Runtime.exec_instr invoke rt class_file st Instruction.iadd =
        RResult.err RuntimeError.emptyStack) ↔ st.frame.stack.length < 2) ∧
    (∀ (lh rh : Int) (rest : List StackValue),
      st.frame.stack = StackValue.integer lh :: StackValue.integer rh :: rest →
      Runtime.exec_instr invoke rt class_file st Instruction.iadd =
        RResult.ok
          { frame :=
              { local_variables := st.frame.local_variables
                stack := StackValue.integer (wrap64 (lh + rh)) :: rest }
            return_value := st.return_value }) ∧
    (∀ (v1 v2 : StackValue) (rest : List StackValue),
      st.frame.stack = v1 :: v2 :: rest →
      ((∀ n : Int, v1 ≠ StackValue.integer n) ∨ (∀ n : Int, v2 ≠ StackValue.integer n)) →
      Runtime.exec_instr invoke rt class_file st Instruction.iadd =
        RResult.err (RuntimeError.stackType ("integer"))) := by
  obtain ⟨⟨lv, stk⟩, rv⟩ := st
  refine ⟨?_, ?_, ?_⟩
  · match stk with
    | [] => simp [Runtime.exec_instr, StackFrame.pop_stack]
    | [v1] => cases v1 <;> simp [Runtime.exec_instr, StackFrame.pop_stack]
    | v1 :: v2 :: rest =>
      cases v1 <;> cases v2 <;>
        simp [Runtime.exec_instr, StackFrame.pop_stack, StackFrame.push_stack]
  · intro lh rh rest hs
    dsimp only at hs
    subst hs
    simp [Runtime.exec_instr, StackFrame.pop_stack, StackFrame.push_stack]
  · intro v1 v2 rest hs hne
    dsimp only at hs
    subst hs
    rcases hne with hne | hne
    · cases v1 with
      | integer n => exact absurd rfl (hne n)
      | none => cases v2 <;> simp [Runtime.exec_instr, StackFrame.pop_stack]
      | null => cases v2 <;> simp [Runtime.exec_instr, StackFrame.pop_stack]
    · cases v2 with
      | integer n => exact absurd rfl (hne n)
      | none => cases v1 <;> simp [Runtime.exec_instr, StackFrame.pop_stack]
      | null => cases v1 <;> simp [Runtime.exec_instr, StackFrame.pop_stack]

/-- Claim C5 witness: `2 iadd 3` on a concrete state. -/
theorem iadd_spec_witness :
    Runtime.exec_instr invokeNothing (Runtime.create emptyClass) emptyClass
        { frame := { local_variables := [], stack := [StackValue.integer 2, StackValue.integer 3] }
          return_value := Option.none } Instruction.iadd =
      RResult.ok
        { frame := { local_variables := [], stack := [StackValue.integer (wrap64 (2 + 3))] }
          return_value := Option.none } :=
  (iadd_spec invokeNothing (Runtime.create emptyClass) emptyClass
    { frame := { local_variables := [], stack := [StackValue.integer 2, StackValue.integer 3] }
      return_value := Option.none }).2.1 2 3 [] rfl

/-- Claim C9 (code_bug): the `IfICmpGE` arm of the interpreter is an empty
stub — for every state, the two integers on top included, nothing is popped,
nothing is compared, and control falls through to the next sequential
instruction with the state unchanged; no control transfer ever happens. -/
theorem ificmpge_is_noop
    (invoke : Method → ClassFile → List LocalVariable → RResult (Option StackValue))
    (rt : Runtime) (class_file : ClassFile) (st : LoopState) (target : Nat) :
    Runtime.exec_instr invoke rt class_file st (Instruction.ificmpge target) =
      RResult.ok st :=
  rfl

/-- Method whose body is `iconst_1; ireturn; iconst_2; ireturn`. -/
def mainAfterReturn : Method :=
  { name := "main"
    signature := { arguments := [], return_type := ValueType.integer }
    code := { max_locals := 0, max_stack := 2 }
    instructions :=
      [Instruction.iconst1, Instruction.ireturn, Instruction.iconst2, Instruction.ireturn] }

/-- Class holding only `mainAfterReturn`. -/
def mainAfterReturnClass : ClassFile :=
  { name := "Main", methods := [mainAfterReturn], constants := [] }

/-- Claim C1 (code_bug): `ireturn` only assigns `return_value`; the
fetch-decode-execute loop continues with the instructions after it.  In the
body `iconst_1; ireturn; iconst_2; ireturn` the two instructions after the
first `ireturn` execute and the method terminates with `Integer(2)` — not
with the `Integer(1)` popped by the first `ireturn` as immediate termination
would require. -/
theorem ireturn_does_not_end_loop :
    Runtime.run_method 2 (Runtime.create mainAfterReturnClass) mainAfterReturn
        mainAfterReturnClass [] = RResult.ok (Option.some (StackValue.integer 2)) ∧
    (Option.some (StackValue.integer 2) : Option StackValue) ≠
      Option.some (StackValue.integer 1) := by
  decide

/-- Claim C10: when the `invokestatic` method reference resolves through the
symbol table to a class name different from the current class's, the
resolved name fails the `if` — which has no else branch — so the instruction
completes as a silent no-op: no error, no pops, no invocation, the state
unchanged. -/
theorem invokestatic_other_class_noop
    (invoke : Method → ClassFile → List LocalVariable → RResult (Option StackValue))
    (rt : Runtime) (class_file : ClassFile) (st : LoopState)
    (mo ci nati : Nat) (cmap : List (Nat × String)) (other : String)
    (h1 : class_file.get_constant mo = Option.some (ConstantType.methodRef ci nati))
    (h2a : lookupClassMap rt class_file.get_class_name = Option.some cmap)
    (h2b : lookupA cmap ci = Option.some other)
    (hne : other ≠ class_file.get_class_name) :
    Runtime.exec_instr invoke rt class_file st (Instruction.invokestatic mo) =
      RResult.ok st := by
  simp [Runtime.exec_instr, h1, h2a, h2b, hne]

/-- Class whose single method reference resolves to the class name `Other`,
different from its own name `Main`. -/
def otherCallClass : ClassFile :=
  { name := "Main"
    methods := []
    constants :=
      [ConstantType.methodRef 1 2, ConstantType.cls 2, ConstantType.utf8 "Other"] }

/-- Claim C10 witness: concrete `invokestatic` aimed at class `Other`. -/
theorem invokestatic_other_class_noop_witness :
    Runtime.exec_instr invokeNothing (Runtime.create otherCallClass) otherCallClass
        { frame := { local_variables := [], stack := [StackValue.integer 3] }
          return_value := Option.none }
        (Instruction.invokestatic 0) =
      RResult.ok
        { frame := { local_variables := [], stack := [StackValue.integer 3] }
          return_value := Option.none } :=
  invokestatic_other_class_noop invokeNothing (Runtime.create otherCallClass)
    otherCallClass
    { frame := { local_variables := [], stack := [StackValue.integer 3] }
      return_value := Option.none }
    0 1 2 [(1, "Other")] "Other" rfl rfl rfl (by decide)

/-- The argument-popping loop pops exactly one value per declared argument:
with at least `tys.length` values available it returns, in pop order, the
converted top `tys.length` stack values together with the frame whose stack
has exactly those values removed. -/
theorem popArgs_spec :
    ∀ (tys : List ValueType) (lv : List LocalVariable) (stk : List StackValue),
      tys.length ≤ stk.length →
      Runtime.popArgs tys { local_variables := lv, stack := stk } =
        Except.ok ((stk.take tys.length).map stackToLocal,
          { local_variables := lv, stack := stk.drop tys.length })
  | [], lv, stk, _ => by simp [Runtime.popArgs]
  | t :: ts, lv, [], h => absurd h (by simp)
  | t :: ts, lv, s :: ss, h => by
    have ih := popArgs_spec ts lv ss (Nat.le_of_succ_le_succ h)
    simp [Runtime.popArgs, StackFrame.pop_stack, ih]

/-- Copying `vars` into a frame of `n` uninitialized slots, `vars.length ≤ n`,
writes them into the low-indexed slots in order and leaves the rest
uninitialized. -/
theorem copyArgs_replicate :
    ∀ (vars : List LocalVariable) (n : Nat), vars.length ≤ n →
      copyArgs (List.replicate n LocalVariable.none) vars =
        Option.some (vars ++ List.replicate (n - vars.length) LocalVariable.none)
  | [], n, _ => by simp [copyArgs]
  | v :: vs, 0, h => absurd h (by simp)
  | v :: vs, n + 1, h => by
    have ih := copyArgs_replicate vs n (Nat.le_of_succ_le_succ h)
    simp [List.replicate_succ, copyArgs, ih]

/-- Claim C8: an `invokestatic` whose method reference resolves through the
symbol table to the current class and whose target method has declared arity
K pops exactly the top K caller-stack values, reverses them into declaration
order, and hands them to the recursive invocation (abstracted as `invoke`,
instantiated by `Runtime.run_method` at any fuel): a non-void success pushes
the returned value onto the caller's remaining stack, a void success pushes
nothing, and a failure (or panic) propagates unchanged.  The last conjunct
shows the callee frame construction: the reversed arguments land in slots
`0..K` in order — the first declared argument in slot 0. -/
theorem invokestatic_same_class_spec
    (invoke : Method → ClassFile → List LocalVariable → RResult (Option StackValue))
    (rt : Runtime) (class_file : ClassFile) (st : LoopState)
    (mo ci nati : Nat) (cmap : List (Nat × String)) (m : Method)
    (h1 : class_file.get_constant mo = Option.some (ConstantType.methodRef ci nati))
    (h2a : lookupClassMap rt class_file.get_class_name = Option.some cmap)
    (h2b : lookupA cmap ci = Option.some class_file.get_class_name)
    (h3 : class_file.get_method_from_nat nati = Option.some m)
    (hlen : m.get_signature.arguments.length ≤ st.frame.stack.length) :
    (∀ v : StackValue,
      invoke m class_file
          (((st.frame.stack.take m.get_signature.arguments.length).map stackToLocal).reverse) =
        RResult.ok (Option.some v) →
      Runtime.exec_instr invoke rt class_file st (Instruction.invokestatic mo) =
        RResult.ok
          { frame :=
              { local_variables := st.frame.local_variables
                stack := v :: st.frame.stack.drop m.get_signature.arguments.length }
            return_value := st.return_value }) ∧
    (invoke m class_file
          (((st.frame.stack.take m.get_signature.arguments.length).map stackToLocal).reverse) =
        RResult.ok Option.none →
      Runtime.exec_instr invoke rt class_file st (Instruction.invokestatic mo) =
        RResult.ok
          { frame :=
              { local_variables := st.frame.local_variables
                stack := st.frame.stack.drop m.get_signature.arguments.length }
            return_value := st.return_value }) ∧
    (∀ e : RuntimeError,
      invoke m class_file
          (((st.frame.stack.take m.get_signature.arguments.length).map stackToLocal).reverse) =
        RResult.err e →
      Runtime.exec_instr invoke rt class_file st (Instruction.invokestatic mo) =
        RResult.err e) ∧
    (∀ msg : String,
      invoke m class_file
          (((st.frame.stack.take m.get_signature.arguments.length).map stackToLocal).reverse) =
        RResult.panic msg →
      Runtime.exec_instr invoke rt class_file st (Instruction.invokestatic mo) =
        RResult.panic msg) ∧
    (m.get_signature.arguments.length ≤ m.code.max_locals →
      StackFrame.for_method m
          (((st.frame.stack.take m.get_signature.arguments.length).map stackToLocal).reverse) =
        Option.some
          { local_variables :=
              (((st.frame.stack.take m.get_signature.arguments.length).map stackToLocal).reverse) ++
                List.replicate (m.code.max_locals - m.get_signature.arguments.length)
                  LocalVariable.none
            stack := [] }) := by
  obtain ⟨⟨lv, stk⟩, rv⟩ := st
  dsimp only at hlen ⊢
  have hpop := popArgs_spec m.get_signature.arguments lv stk hlen
  refine ⟨?_, ?_, ?_, ?_, ?_⟩
  · intro v hv
    simp only [List.map_take] at hv
    simp [Runtime.exec_instr, h1, h2a, h2b, h3, hpop, hv, StackFrame.push_stack]
  · intro hv
    simp only [List.map_take] at hv
    simp [Runtime.exec_instr, h1, h2a, h2b, h3, hpop, hv]
  · intro e hv
    simp only [List.map_take] at hv
    simp [Runtime.exec_instr, h1, h2a, h2b, h3, hpop, hv]
  · intro msg hv
    simp only [List.map_take] at hv
    simp [Runtime.exec_instr, h1, h2a, h2b, h3, hpop, hv]
  · intro hK
    have hl : (((stk.take m.get_signature.arguments.length).map stackToLocal).reverse).length =
        m.get_signature.arguments.length := by
      simp [Nat.min_eq_left hlen]
    have hc := copyArgs_replicate
      (((stk.take m.get_signature.arguments.length).map stackToLocal).reverse)
      m.code.max_locals (by rw [hl]; exact hK)
    rw [hl] at hc
    simp only [List.map_take] at hc
    simp [StackFrame.for_method, StackFrame.create, StackFrame.init_variables, hc]

/-- Convenience invoker returning `Integer(5)`, standing in for a concrete
recursive call result. -/
def invokeConst5 : Method → ClassFile → List LocalVariable → RResult (Option StackValue) :=
  fun _ _ _ => RResult.ok (Option.some (StackValue.integer 5))

/-- Static helper method of arity one. -/
def helperMethod : Method :=
  { name := "helper"
    signature := { arguments := [ValueType.integer], return_type := ValueType.integer }
    code := { max_locals := 1, max_stack := 2 }
    instructions :=
      [Instruction.iload0, Instruction.iconst1, Instruction.iadd, Instruction.ireturn] }

/-- Class whose constant table resolves method reference 0 to its own name
`Main` and name-and-type 2 to `helperMethod`. -/
def callerClass : ClassFile :=
  { name := "Main"
    methods := [helperMethod]
    constants :=
      [ConstantType.methodRef 1 2, ConstantType.cls 3, ConstantType.nameAndType 4 0,
       ConstantType.utf8 "Main", ConstantType.utf8 "helper"] }

/-- Claim C8 witness: a concrete same-class `invokestatic` of arity 1 whose
invocation returns `Integer(5)`; the argument is popped and the result
pushed. -/
theorem invokestatic_same_class_spec_witness :
    Runtime.exec_instr invokeConst5 (Runtime.create callerClass) callerClass
        { frame := { local_variables := [], stack := [StackValue.integer 4] }
          return_value := Option.none }
        (Instruction.invokestatic 0) =
      RResult.ok
        { frame := { local_variables := [], stack := [StackValue.integer 5] }
          return_value := Option.none } := by
  have h := (invokestatic_same_class_spec invokeConst5 (Runtime.create callerClass)
      callerClass
      { frame := { local_variables := [], stack := [StackValue.integer 4] }
        return_value := Option.none }
      0 1 2 [(1, "Main")] helperMethod rfl rfl rfl rfl (by decide)).1
      (StackValue.integer 5) rfl
  simpa using h
